import Mathlib

/- Shallow embedding of the MediaForge task-orchestration core
   (src-tauri/src: types.rs, error.rs, downloader.rs, converter.rs).
   Rust f32 values are modelled as exact rationals: every comparison and
   assignment the claims exercise involves exactly representable values,
   so the rational model agrees with IEEE f32 on all inputs used here.
   Rust machine integers (u32/u64/i32) are modelled as Nat/Int; the one
   place overflow matters (u64 parse) checks the 2^64 bound explicitly. -/

/-- Task lifecycle states (types.rs, enum TaskStatus). -/
inductive TaskStatus where
  | Queued
  | Downloading
  | Processing
  | Paused
  | Completed
  | Failed
  | Cancelled
deriving DecidableEq, Repr

/-- Registry entry for one task (types.rs, struct TaskProgress).
    progress is f32 in the source, modelled as a rational. -/
structure TaskProgress where
  task_id : String
  name : String
  status : TaskStatus
  progress : ℚ
  speed : Option String
  eta : Option String
  error : Option String
  file_path : Option String
deriving DecidableEq, Repr

/-- Error taxonomy (error.rs, enum MediaForgeError). Each variant carries
    its message string; the thiserror display strings are not needed by
    the claims. -/
inductive MediaForgeError where
  | DownloadError (msg : String)
  | ConversionError (msg : String)
  | InvalidUrl (msg : String)
  | FileSystemError (msg : String)
  | FFmpegError (msg : String)
  | YtDlpError (msg : String)
  | TaskNotFound (msg : String)
  | InvalidSettings (msg : String)
  | MissingDependency (msg : String)
  | NetworkError (msg : String)
  | DiskSpaceError (msg : String)
  | PermissionError (msg : String)
  | TemporaryError (msg : String)
  | ResourceExhausted (msg : String)
deriving DecidableEq, Repr

/-- List-level substring test: does pat occur contiguously in l?
    Models Rust str::contains for literal patterns. -/
def containsSub : List Char → List Char → Bool
  | l@(_ :: rest), pat => pat.isPrefixOf l || containsSub rest pat
  | [], pat => pat.isEmpty

/-- Models Rust str::contains(pat) for string patterns. -/
def contains_substr (s pat : String) : Bool :=
  containsSub s.data pat.data

/-- Models Rust str::to_lowercase. The source only lowercases ASCII
    failure text, where Char.toLower coincides with Rust's lowering. -/
def to_lowercase (s : String) : String :=
  ⟨s.data.map Char.toLower⟩

/-- Models MediaForgeError::is_retryable (error.rs lines 65-91).
    Note the keyword checks run on the raw message, without lowering,
    exactly as in the source. -/
def MediaForgeError.is_retryable : MediaForgeError → Bool
  | .NetworkError _ => true
  | .TemporaryError _ => true
  | .YtDlpError msg =>
      contains_substr msg "network" || contains_substr msg "timeout" ||
      contains_substr msg "connection" || contains_substr msg "temporary" ||
      contains_substr msg "503" || contains_substr msg "502" ||
      contains_substr msg "429"
  | .FFmpegError msg =>
      contains_substr msg "resource temporarily unavailable" ||
      contains_substr msg "interrupted system call"
  | .FileSystemError msg =>
      contains_substr msg "resource temporarily unavailable" ||
      contains_substr msg "device busy"
  | _ => false

/-- First branch condition of classify_ytdlp_error (downloader.rs 508-516):
    network indicators or the generic exit code 1. -/
def ytdlp_network_cond (msg_lower : String) (exit_code : Option Int) : Bool :=
  contains_substr msg_lower "network" || contains_substr msg_lower "connection" ||
  contains_substr msg_lower "timeout" || contains_substr msg_lower "temporary failure" ||
  contains_substr msg_lower "503" || contains_substr msg_lower "502" ||
  contains_substr msg_lower "504" || contains_substr msg_lower "429" ||
  exit_code == some 1

/-- Second branch condition of classify_ytdlp_error (downloader.rs 521-524):
    content-unavailable / authentication indicators or exit code 2. -/
def ytdlp_unavailable_cond (msg_lower : String) (exit_code : Option Int) : Bool :=
  contains_substr msg_lower "private video" || contains_substr msg_lower "not available" ||
  contains_substr msg_lower "geo-blocked" || exit_code == some 2

/-- Third branch condition of classify_ytdlp_error (downloader.rs 529-530). -/
def ytdlp_disk_cond (msg_lower : String) : Bool :=
  contains_substr msg_lower "no space left" || contains_substr msg_lower "disk full"

/-- Fourth branch condition of classify_ytdlp_error (downloader.rs 535). -/
def ytdlp_temporary_cond (msg_lower : String) (exit_code : Option Int) : Bool :=
  exit_code == some 1 || contains_substr msg_lower "interrupted"

/-- Models DownloadManager::classify_ytdlp_error (downloader.rs 504-543):
    a first-match-wins chain over the lowercased message and exit code. -/
def classify_ytdlp_error (message : String) (exit_code : Option Int) : MediaForgeError :=
  let msg_lower := to_lowercase message
  if ytdlp_network_cond msg_lower exit_code then
    .NetworkError message
  else if ytdlp_unavailable_cond msg_lower exit_code then
    .YtDlpError message
  else if ytdlp_disk_cond msg_lower then
    .DiskSpaceError message
  else if ytdlp_temporary_cond msg_lower exit_code then
    .TemporaryError message
  else
    .YtDlpError message

/-- First branch condition of classify_ffmpeg_error (converter.rs 884-887):
    temporary filesystem indicators or the generic exit code 1. -/
def ffmpeg_temp_cond (msg_lower : String) (exit_code : Option Int) : Bool :=
  contains_substr msg_lower "resource temporarily unavailable" ||
  contains_substr msg_lower "device busy" ||
  contains_substr msg_lower "interrupted system call" ||
  exit_code == some 1

/-- Second branch condition of classify_ffmpeg_error (converter.rs 892-894). -/
def ffmpeg_disk_cond (msg_lower : String) : Bool :=
  contains_substr msg_lower "no space left" || contains_substr msg_lower "disk full" ||
  contains_substr msg_lower "write error"

/-- Third branch condition of classify_ffmpeg_error (converter.rs 899-901). -/
def ffmpeg_permission_cond (msg_lower : String) (exit_code : Option Int) : Bool :=
  contains_substr msg_lower "permission denied" ||
  contains_substr msg_lower "access denied" || exit_code == some 126

/-- Fourth branch condition of classify_ffmpeg_error (converter.rs 906-910). -/
def ffmpeg_format_cond (msg_lower : String) (exit_code : Option Int) : Bool :=
  contains_substr msg_lower "invalid data" || contains_substr msg_lower "unsupported" ||
  contains_substr msg_lower "no decoder" || contains_substr msg_lower "invalid file format" ||
  exit_code == some 255

/-- Models ConversionManager::classify_ffmpeg_error (converter.rs 880-918). -/
def classify_ffmpeg_error (message : String) (exit_code : Option Int) : MediaForgeError :=
  let msg_lower := to_lowercase message
  if ffmpeg_temp_cond msg_lower exit_code then
    .TemporaryError message
  else if ffmpeg_disk_cond msg_lower then
    .DiskSpaceError message
  else if ffmpeg_permission_cond msg_lower exit_code then
    .PermissionError message
  else if ffmpeg_format_cond msg_lower exit_code then
    .FFmpegError message
  else
    .TemporaryError message

/-- Retry policy (error.rs, struct RetryConfig). Delay fields are u64
    seconds in the source, modelled as Nat. -/
structure RetryConfig where
  max_attempts : Nat
  base_delay : Nat
  max_delay : Nat
  exponential_backoff : Bool
deriving DecidableEq, Repr

/-- Models RetryConfig::calculate_delay (error.rs 176-183). The u32
    saturating_sub is Nat subtraction. -/
def RetryConfig.calculate_delay (c : RetryConfig) (attempt : Nat) : Nat :=
  if c.exponential_backoff then
    min (c.base_delay * 2 ^ (attempt - 1)) c.max_delay
  else
    c.base_delay

/-- Loop body of retry_async (error.rs 197-218). The FnMut operation is
    modelled as a function of its zero-based invocation index; sleeping
    between attempts has no observable effect in the pure model. The
    returned Nat is the number of times the operation was invoked. -/
def retry_go (op : Nat → Except MediaForgeError T) :
    Nat → Nat → Option MediaForgeError → Except MediaForgeError T × Nat
  | 0, calls, last =>
      (.error (last.getD (.TemporaryError "All retry attempts exhausted")), calls)
  | Nat.succ n, calls, _last =>
      match op calls with
      | .ok v => (.ok v, calls + 1)
      | .error e =>
          if e.is_retryable then retry_go op n (calls + 1) (some e)
          else (.error e, calls + 1)

/-- Models retry_async (error.rs 187-223): attempts 1..=max_attempts,
    returning the result together with the invocation count. -/
def retry_async (config : RetryConfig) (op : Nat → Except MediaForgeError T) :
    Except MediaForgeError T × Nat :=
  retry_go op config.max_attempts 0 none

/-- The task registry: the DashMap String -> TaskProgress is modelled as
    an association list with unique keys maintained by insertion. -/
abbrev Registry := List (String × TaskProgress)

/-- Models DownloadManager::get_task / ConversionManager::get_task. -/
def get_task (r : Registry) (task_id : String) : Option TaskProgress :=
  (r.find? (fun p => p.1 == task_id)).map (fun p => p.2)

/-- Models DownloadManager::update_task / ConversionManager::update_task
    (downloader.rs 189-193, converter.rs 229-233): apply the closure
    in place iff the task exists; silently a no-op otherwise. -/
def update_task (r : Registry) (task_id : String) (f : TaskProgress → TaskProgress) :
    Registry :=
  r.map (fun p => if p.1 == task_id then (p.1, f p.2) else p)

/-- Models DownloadManager::remove_task. -/
def remove_task (r : Registry) (task_id : String) : Registry :=
  r.filter (fun p => !(p.1 == task_id))

/-- Models DownloadManager::pause_task (downloader.rs 545-550): flips the
    status flag and always returns Ok. -/
def pause_task (r : Registry) (task_id : String) :
    Registry × Except MediaForgeError Unit :=
  (update_task r task_id (fun t => { t with status := .Paused }), .ok ())

/-- Manager state for cancel_task: the task registry plus the set of live
    supervision records (DashMap String -> TaskHandle, modelled by its
    key set since the claims only consult presence). -/
structure ManagerState where
  tasks : Registry
  task_handles : List String
deriving DecidableEq, Repr

/-- The closure both arms of cancel_task apply to the registry entry. -/
def cancelled_update (t : TaskProgress) : TaskProgress :=
  { t with status := .Cancelled, error := some "Task cancelled by user" }

/-- Models DownloadManager::cancel_task (downloader.rs 552-580) and the
    structurally identical ConversionManager::cancel_task (converter.rs
    239-267). join_ok says whether awaiting the removed TaskHandle's
    join handle succeeds; the JoinError text is abbreviated. -/
def cancel_task (s : ManagerState) (task_id : String) (join_ok : Bool) :
    ManagerState × Except MediaForgeError Unit :=
  if s.task_handles.contains task_id then
    let s1 : ManagerState :=
      { tasks := update_task s.tasks task_id cancelled_update,
        task_handles := s.task_handles.erase task_id }
    if join_ok then (s1, .ok ())
    else (s1, .error (.TaskNotFound "Failed to cancel task"))
  else
    ({ s with tasks := update_task s.tasks task_id cancelled_update }, .ok ())

/-- Whether a status is terminal in the sense of the specification
    (Completed, Failed, Cancelled). -/
def TaskStatus.isTerminal : TaskStatus → Bool
  | .Completed => true
  | .Failed => true
  | .Cancelled => true
  | _ => false

/-- Splits a character list into maximal runs of non-whitespace
    characters; models Rust str::split_whitespace on the list level. -/
def splitWSGo : List Char → List Char → List (List Char)
  | acc, [] => if acc.isEmpty then [] else [acc.reverse]
  | acc, c :: rest =>
      if c.isWhitespace then
        if acc.isEmpty then splitWSGo [] rest
        else acc.reverse :: splitWSGo [] rest
      else splitWSGo (c :: acc) rest

/-- Models Rust str::split_whitespace collected to a list of tokens. -/
def split_whitespace (s : String) : List String :=
  (splitWSGo [] s.data).map (fun l => ⟨l⟩)

/-- Fuel-driven splitter on a literal separator, leftmost-first and
    non-overlapping; models Rust str::split(pat) for a nonempty literal
    pattern. The fuel is an upper bound on the input length. -/
def splitOnGo (sep : List Char) : Nat → List Char → List Char → List (List Char)
  | 0, acc, _ => [acc.reverse]
  | fuel + 1, acc, l =>
      if sep ≠ [] ∧ sep.isPrefixOf l then
        acc.reverse :: splitOnGo sep fuel [] (l.drop sep.length)
      else
        match l with
        | [] => [acc.reverse]
        | c :: rest => splitOnGo sep fuel (c :: acc) rest

/-- Models Rust str::split(sep) for a nonempty literal separator. -/
def listSplitOn (sep l : List Char) : List (List Char) :=
  splitOnGo sep (l.length + 1) [] l

/-- The segment Rust's line.split(sep).nth(1) yields, if any. -/
def split_nth_after (sep line : String) : Option String :=
  ((listSplitOn sep.data line.data)[1]?).map (fun l => ⟨l⟩)

/-- First whitespace-delimited token, models .split_whitespace().next(). -/
def first_token? (s : String) : Option String :=
  (split_whitespace s).head?

/-- Numeric value of a digit run (most significant first). -/
def digitsVal (l : List Char) : Nat :=
  l.foldl (fun a c => a * 10 + (c.toNat - 48)) 0

/-- Whether every character is an ASCII digit. -/
def allDigits (l : List Char) : Bool :=
  l.all Char.isDigit

/-- Models str::parse::<f32>().ok() on the plain decimal forms the
    progress lines carry (optional sign, digits, optional fraction; no
    exponent, infinity or nan forms, which never occur in yt-dlp
    percentage tokens). The value is kept exact as a rational instead of
    being rounded to the nearest f32. -/
def parse_float? (s : String) : Option ℚ :=
  let signed : Bool × List Char :=
    match s.data with
    | '-' :: rest => (true, rest)
    | '+' :: rest => (false, rest)
    | cs => (false, cs)
  let body := signed.2
  let val? : Option ℚ :=
    match listSplitOn ['.'] body with
    | [ip] =>
        if allDigits ip ∧ ip ≠ [] then some ((digitsVal ip : ℚ)) else none
    | [ip, fp] =>
        if allDigits ip ∧ allDigits fp ∧ (ip ≠ [] ∨ fp ≠ []) then
          some ((digitsVal (ip ++ fp) : ℚ) / (10 ^ fp.length : ℚ))
        else none
    | _ => none
  val?.map (fun q => if signed.1 then -q else q)

/-- Models str::parse::<u64>().ok(): optional leading plus, digits only,
    failing on overflow past 2^64 - 1. -/
def parse_u64? (s : String) : Option Nat :=
  let body := match s.data with
    | '+' :: rest => rest
    | cs => cs
  if body ≠ [] ∧ allDigits body then
    let n := digitsVal body
    if n < 2 ^ 64 then some n else none
  else none

/-- Models str::trim on the list level. -/
def trimWS (l : List Char) : List Char :=
  ((l.dropWhile Char.isWhitespace).reverse.dropWhile Char.isWhitespace).reverse

/-- Normalized progress event (downloader.rs, struct ProgressInfo). -/
structure ProgressInfo where
  percentage : ℚ
  speed : Option String
  eta : Option String
deriving DecidableEq, Repr

/-- The percentage sub-computation of parse_ytdlp_progress (downloader.rs
    605-608): first whitespace token ending in a percent sign, with all
    trailing percent signs removed (trim_end_matches), parsed as f32.
    None when no such token exists or it fails to parse. -/
def percent_token? (line : String) : Option ℚ :=
  ((split_whitespace line).find? (fun t => t.data.getLast? == some '%')).bind
    (fun t => parse_float? ⟨(t.data.reverse.dropWhile (fun c => c == '%')).reverse⟩)

/-- Models parse_ytdlp_progress (downloader.rs 598-628). A line without
    the "[download]" marker yields None; otherwise the percentage
    defaults to 0.0 (unwrap_or) when no percent token parses. -/
def parse_ytdlp_progress (line : String) : Option ProgressInfo :=
  if !(contains_substr line "[download]") then
    none
  else
    some
      { percentage := (percent_token? line).getD 0,
        speed := (split_nth_after "at" line).bind first_token?,
        eta := (split_nth_after "ETA" line).bind first_token? }

/-- Models the filename-extraction branch of the stdout loop
    (downloader.rs 421-432): on destination / merger / extract-audio
    announcements, the path after the marker, trimmed of whitespace and
    double quotes. -/
def extract_file_path? (line : String) : Option String :=
  if contains_substr line "[download] Destination:" ||
     contains_substr line "[Merger]" || contains_substr line "[ExtractAudio]" then
    (((split_nth_after "Destination:" line).orElse
        (fun _ => split_nth_after "Merging formats into" line)).orElse
        (fun _ => split_nth_after "to:" line)).map
      (fun s => ⟨((trimWS s.data).dropWhile (fun c => c == '"')).reverse.dropWhile
                    (fun c => c == '"') |>.reverse⟩)
  else none

/-- One iteration of the stdout progress loop (downloader.rs 407-433):
    a parsed progress line stores percentage, speed and eta into the
    registry entry; a destination announcement rewrites file_path and
    name. Event emission to the GUI is outside the model. -/
def apply_stdout_line (r : Registry) (task_id : String) (line : String) : Registry :=
  let r1 :=
    match parse_ytdlp_progress line with
    | some info =>
        update_task r task_id (fun t =>
          { t with progress := info.percentage, speed := info.speed, eta := info.eta })
    | none => r
  match extract_file_path? line with
  | some fp => update_task r1 task_id (fun t => { t with file_path := some fp, name := fp })
  | none => r1

/-- Models parse_ffmpeg_progress (converter.rs 1026-1044): an
    out_time_ms line against a fixed assumed total of 600000 ms, clamped
    by .min(100.0) and only surfaced when inside (0, 100]. -/
def parse_ffmpeg_progress (line : String) : Option ℚ :=
  if ("out_time_ms=".data).isPrefixOf line.data then
    match parse_u64? ⟨trimWS (line.data.drop ("out_time_ms=".data).length)⟩ with
    | some current_ms =>
        let estimated_total_ms : ℚ := 600000
        let progress := min ((current_ms : ℚ) / estimated_total_ms * 100) 100
        if 0 < progress ∧ progress ≤ 100 then some progress else none
    | none => none
  else none

/-- Request payloads (types.rs). Paths are carried as strings; PathBuf
    values are modelled by their textual form. -/
inductive DownloadType where
  | Single
  | Bulk
  | Playlist
deriving DecidableEq, Repr

/-- Media output formats (types.rs, enum MediaFormat). -/
inductive MediaFormat where
  | Mp4
  | Mp3
deriving DecidableEq, Repr

/-- Clip trim settings (types.rs, struct TrimSettings). -/
structure TrimSettings where
  start_time : String
  end_time : String
deriving DecidableEq, Repr

/-- Download request (types.rs, struct DownloadRequest). -/
structure DownloadRequest where
  urls : List String
  download_type : DownloadType
  format : MediaFormat
  quality : Option String
  audio_quality : Option String
  download_path : String
  trim : Option TrimSettings
deriving DecidableEq, Repr

/-- Conversion categories (types.rs, enum ConversionType). -/
inductive ConversionType where
  | Image
  | Video
  | Audio
deriving DecidableEq, Repr

/-- Conversion request (types.rs, struct ConvertRequest); the per-class
    settings payloads are irrelevant to the submission claims and are
    carried as opaque option strings. -/
structure ConvertRequest where
  input_files : List String
  conversion_type : ConversionType
  output_format : String
  output_path : String
deriving DecidableEq, Repr

/-- Environment of validators consumed by submission. validate_youtube_url
    and sanitize_path (downloader.rs 45-150) are pure in spirit but
    depend on regexes, the environment and the filesystem; the
    submission claims are about the orchestration around them, so they
    enter the model as opaque checkers whose Ok/Err outcome is all
    start_download consults (the PathBuf payload is unused at
    submission time). -/
structure DlValidationEnv where
  validate_youtube_url : String → Except MediaForgeError Unit
  sanitize_path : String → Except MediaForgeError Unit

/-- Submission-time manager state: the registry, the live supervision
    records (task_handles keys), and the counter that stands in for the
    UUID v4 generator (fresh ids are assumed unique, which Uuid::new_v4
    provides with overwhelming probability). -/
structure DMState where
  tasks : Registry
  task_handles : List String
  next_id : Nat
deriving Repr

/-- Fresh task identifier from the UUID stand-in counter. -/
def freshId (n : Nat) : String :=
  "task-" ++ toString n

/-- Models DownloadManager::create_task / ConversionManager::create_task
    (downloader.rs 165-179): insert a Queued, zero-progress entry under a
    fresh id and return the id. -/
def create_task (s : DMState) (name : String) : String × DMState :=
  let task_id := freshId s.next_id
  let task : TaskProgress :=
    { task_id := task_id, name := name, status := .Queued, progress := 0,
      speed := none, eta := none, error := none, file_path := none }
  (task_id,
   { s with tasks := s.tasks ++ [(task_id, task)], next_id := s.next_id + 1 })

/-- The per-url loop of start_download (downloader.rs 209-278): validate
    the url (the ? operator aborts the whole function on failure, keeping
    the state accumulated so far and discarding the collected ids),
    create the task, flip it to Downloading before spawning, record the
    id, then spawn the supervised execution and register its TaskHandle
    (the spawned body itself is outside this submission-time model). -/
def start_download_loop (env : DlValidationEnv) :
    DMState → List String → List String →
    Except MediaForgeError (List String) × DMState
  | s, acc, [] => (.ok acc.reverse, s)
  | s, acc, url :: rest =>
      match env.validate_youtube_url url with
      | .error e => (.error e, s)
      | .ok _ =>
          let created := create_task s ("Downloading from " ++ url)
          let task_id := created.1
          let s1 := created.2
          let set_downloading := fun (t : TaskProgress) => { t with status := TaskStatus.Downloading }
          let s2 : DMState := { s1 with tasks := update_task s1.tasks task_id set_downloading }
          let s3 : DMState := { s2 with task_handles := s2.task_handles ++ [task_id] }
          start_download_loop env s3 (task_id :: acc) rest

/-- Models DownloadManager::start_download (downloader.rs 199-281):
    sanitize the shared destination first (rejecting the whole batch on
    failure, before any task exists), then run the per-url loop. -/
def start_download (env : DlValidationEnv) (request : DownloadRequest)
    (s : DMState) : Except MediaForgeError (List String) × DMState :=
  match env.sanitize_path request.download_path with
  | .error e => (.error e, s)
  | .ok _ => start_download_loop env s [] request.urls

/-- Validator environment for conversion submission (converter.rs 42-190):
    validate_input_file consults the filesystem and validate_image_format
    is pure; both enter the model as opaque checkers. -/
structure ConvValidationEnv where
  validate_input_file : String → Except MediaForgeError Unit
  validate_image_format : String → String → Except MediaForgeError Unit
  sanitize_path : String → Except MediaForgeError Unit

/-- The two per-item validation statements of start_conversion
    (converter.rs 282-288) in sequence: input-file validation, then the
    image-format check when the request is an image conversion. -/
def validate_conversion_item (env : ConvValidationEnv) (request : ConvertRequest)
    (input_file : String) : Except MediaForgeError Unit :=
  match env.validate_input_file input_file with
  | .error e => .error e
  | .ok _ =>
      if request.conversion_type = .Image then
        env.validate_image_format input_file request.output_format
      else
        .ok ()

/-- Models Path::file_name().and_then(to_str).unwrap_or("Unknown") used
    for the task label (converter.rs 290-293): the last nonempty slash
    component, Unknown for empty or dot-dot endings. -/
def file_name_of (p : String) : String :=
  match ((listSplitOn ['/'] p.data).filter (fun l => l ≠ [])).getLast? with
  | some c => if c = ['.', '.'] then "Unknown" else ⟨c⟩
  | none => "Unknown"

/-- The per-file loop of start_conversion (converter.rs 281-361):
    validate (the ? operator aborts the whole function on failure),
    create the task, record the id, flip the task to Processing before
    spawning, then spawn and register the TaskHandle. -/
def start_conversion_loop (env : ConvValidationEnv) (request : ConvertRequest) :
    DMState → List String → List String →
    Except MediaForgeError (List String) × DMState
  | s, acc, [] => (.ok acc.reverse, s)
  | s, acc, input_file :: rest =>
      match validate_conversion_item env request input_file with
      | .error e => (.error e, s)
      | .ok _ =>
          let created := create_task s ("Converting " ++ file_name_of input_file)
          let task_id := created.1
          let s1 := created.2
          let set_processing := fun (t : TaskProgress) => { t with status := TaskStatus.Processing }
          let s2 : DMState := { s1 with tasks := update_task s1.tasks task_id set_processing }
          let s3 : DMState := { s2 with task_handles := s2.task_handles ++ [task_id] }
          start_conversion_loop env request s3 (task_id :: acc) rest

/-- Models ConversionManager::start_conversion (converter.rs 269-364):
    sanitize the shared output path first (rejecting the whole batch on
    failure, before any task exists), then run the per-file loop. -/
def start_conversion (env : ConvValidationEnv) (request : ConvertRequest)
    (s : DMState) : Except MediaForgeError (List String) × DMState :=
  match env.sanitize_path request.output_path with
  | .error e => (.error e, s)
  | .ok _ => start_conversion_loop env request s [] request.input_files

deriving instance DecidableEq for Except

/-- Fixture: a task sitting at the terminal Completed status. -/
def terminal_task_fixture : TaskProgress :=
  { task_id := "t1", name := "video", status := .Completed, progress := 100,
    speed := none, eta := none, error := none, file_path := some "/tmp/v.mp4" }

/-- Fixture registry holding only the completed task. -/
def terminal_registry_fixture : Registry :=
  [("t1", terminal_task_fixture)]

/-- Fixture: manager state with a finished task whose supervision record
    is gone (the TaskHandle was removed on completion). -/
def finished_state_fixture : ManagerState :=
  { tasks := [("t8", { terminal_task_fixture with task_id := "t8" })],
    task_handles := [] }

/-- Fixture validators for download submission: exactly the url "bad"
    fails validation, every destination sanitizes fine. -/
def c2_dl_env : DlValidationEnv :=
  { validate_youtube_url := fun u =>
      if u = "bad" then .error (.InvalidUrl "bad url") else .ok (),
    sanitize_path := fun _ => .ok () }

/-- Fixture download env whose destination sanitization always fails. -/
def c2_dl_env_bad_dest : DlValidationEnv :=
  { validate_youtube_url := fun _ => .ok (),
    sanitize_path := fun _ => .error (.InvalidSettings "bad destination") }

/-- Fixture batch: a valid url, an invalid one, then another valid one. -/
def c2_dl_request : DownloadRequest :=
  { urls := ["u1", "bad", "u3"], download_type := .Single, format := .Mp4,
    quality := none, audio_quality := none, download_path := "/tmp/dl",
    trim := none }

/-- Fixture conversion validators: exactly the file "bad.avi" fails. -/
def c2_conv_env : ConvValidationEnv :=
  { validate_input_file := fun f =>
      if f = "bad.avi" then .error (.FileSystemError "missing input") else .ok (),
    validate_image_format := fun _ _ => .ok (),
    sanitize_path := fun _ => .ok () }

/-- Fixture conversion batch mirroring c2_dl_request. -/
def c2_conv_request : ConvertRequest :=
  { input_files := ["a.avi", "bad.avi", "c.avi"], conversion_type := .Video,
    output_format := "mp4", output_path := "/tmp/out" }

/-- Fixture conversion env whose output-path sanitization always fails. -/
def c2_conv_env_bad_dest : ConvValidationEnv :=
  { validate_input_file := fun _ => .ok (),
    validate_image_format := fun _ _ => .ok (),
    sanitize_path := fun _ => .error (.InvalidSettings "bad destination") }

/-- Fixture empty manager state for submissions. -/
def empty_dm_state : DMState :=
  { tasks := [], task_handles := [], next_id := 0 }

/-- Fixture operation that fails retryably on its first two invocations
    and succeeds on the third. -/
def op_fails_twice : Nat → Except MediaForgeError Nat :=
  fun n => if n < 2 then .error (.NetworkError "connection reset by peer") else .ok 7

/-- Fixture operation that always fails with a non-retryable error. -/
def op_fatal : Nat → Except MediaForgeError Nat :=
  fun _ => .error (.PermissionError "denied")

/-- Fixture: a task in the Active (Downloading) state. -/
def downloading_task_fixture : TaskProgress :=
  { task_id := "t", name := "clip", status := .Downloading, progress := 0,
    speed := none, eta := none, error := none, file_path := none }

/-- Fixture registry holding only the downloading task. -/
def downloading_registry_fixture : Registry :=
  [("t", downloading_task_fixture)]

theorem get_task_cons_eq {k task_id : String} (v : TaskProgress) (rest : Registry)
    (h : k = task_id) :
    get_task ((k, v) :: rest) task_id = some v := by
  simp [get_task, List.find?, h]

theorem get_task_cons_ne {k task_id : String} (v : TaskProgress) (rest : Registry)
    (h : ¬k = task_id) :
    get_task ((k, v) :: rest) task_id = get_task rest task_id := by
  have hb : (k == task_id) = false := by simp [h]
  simp [get_task, List.find?, hb]

theorem update_task_cons_eq {k task_id : String} (v : TaskProgress) (rest : Registry)
    (f : TaskProgress → TaskProgress) (h : k = task_id) :
    update_task ((k, v) :: rest) task_id f = (k, f v) :: update_task rest task_id f := by
  simp [update_task, h]

theorem update_task_cons_ne {k task_id : String} (v : TaskProgress) (rest : Registry)
    (f : TaskProgress → TaskProgress) (h : ¬k = task_id) :
    update_task ((k, v) :: rest) task_id f = (k, v) :: update_task rest task_id f := by
  have hb : (k == task_id) = false := by simp [h]
  simp [update_task, hb, h]

theorem get_task_update_task (r : Registry) (task_id : String)
    (f : TaskProgress → TaskProgress) :
    get_task (update_task r task_id f) task_id = (get_task r task_id).map f := by
  induction r with
  | nil => rfl
  | cons p rest ih =>
      rcases p with ⟨k, v⟩
      by_cases h : k = task_id
      · rw [update_task_cons_eq v rest f h, get_task_cons_eq (f v) _ h,
            get_task_cons_eq v rest h]
        rfl
      · rw [update_task_cons_ne v rest f h, get_task_cons_ne v _ h,
            get_task_cons_ne v rest h, ih]

theorem update_task_length (r : Registry) (task_id : String)
    (f : TaskProgress → TaskProgress) :
    (update_task r task_id f).length = r.length := by
  simp [update_task]

/-- C3 counterexample: a message containing the permission indicator
    "permission denied" together with generic exit code 1 is classified
    by the first (temporary/generic) branch as retryable Temporary, not
    as the non-retryable Permission category the claim requires. -/
theorem c3_counterexample :
    classify_ffmpeg_error "permission denied" (some 1)
        = .TemporaryError "permission denied" ∧
    classify_ffmpeg_error "permission denied" (some 1)
        ≠ .PermissionError "permission denied" ∧
    (classify_ffmpeg_error "permission denied" (some 1)).is_retryable = true := by
  decide

/-- C3 (amended): exit code 1 is matched by the first branch of both
    classifiers before any message text, so any message with exit code 1
    resolves to a retryable category (Temporary for ffmpeg, Network for
    yt-dlp) even when it contains a permission indicator; permission
    indicators win only when neither the temporary branch nor the disk
    branch of the ffmpeg classifier matches, in which case the result is
    the non-retryable Permission category. -/
theorem c3_exit_code_one_precedence :
    (∀ message : String,
        classify_ffmpeg_error message (some 1) = .TemporaryError message ∧
        (classify_ffmpeg_error message (some 1)).is_retryable = true) ∧
    (∀ message : String,
        classify_ytdlp_error message (some 1) = .NetworkError message ∧
        (classify_ytdlp_error message (some 1)).is_retryable = true) ∧
    (∀ (message : String) (exit_code : Option Int),
        ffmpeg_temp_cond (to_lowercase message) exit_code = false →
        ffmpeg_disk_cond (to_lowercase message) = false →
        contains_substr (to_lowercase message) "permission denied" = true →
        classify_ffmpeg_error message exit_code = .PermissionError message ∧
        (classify_ffmpeg_error message exit_code).is_retryable = false) := by
  refine ⟨?_, ?_, ?_⟩
  · intro message
    have h : ffmpeg_temp_cond (to_lowercase message) (some 1) = true := by
      simp [ffmpeg_temp_cond]
    exact ⟨by simp [classify_ffmpeg_error, h], by
      simp [classify_ffmpeg_error, h, MediaForgeError.is_retryable]⟩
  · intro message
    have h : ytdlp_network_cond (to_lowercase message) (some 1) = true := by
      simp [ytdlp_network_cond]
    exact ⟨by simp [classify_ytdlp_error, h], by
      simp [classify_ytdlp_error, h, MediaForgeError.is_retryable]⟩
  · intro message exit_code h1 h2 h3
    have hp : ffmpeg_permission_cond (to_lowercase message) exit_code = true := by
      simp [ffmpeg_permission_cond, h3]
    exact ⟨by simp [classify_ffmpeg_error, h1, h2, hp], by
      simp [classify_ffmpeg_error, h1, h2, hp, MediaForgeError.is_retryable]⟩

/-- C3 witness: the permission arm of the amended statement evaluated at
    the concrete input ("permission denied", exit code 126). -/
theorem c3_witness :
    classify_ffmpeg_error "permission denied" (some 126)
        = .PermissionError "permission denied" ∧
    (classify_ffmpeg_error "permission denied" (some 126)).is_retryable = false :=
  c3_exit_code_one_precedence.2.2 "permission denied" (some 126)
    (by decide) (by decide) (by decide)

/-- C5 counterexample: a failure message matching none of the listed
    categories, fed to the yt-dlp classifier, yields the non-retryable
    YtDlpError fallback, not the retryable Temporary category the claim
    asserts for both tool families. -/
theorem c5_counterexample :
    classify_ytdlp_error "xyzzy" none = .YtDlpError "xyzzy" ∧
    classify_ytdlp_error "xyzzy" none ≠ .TemporaryError "xyzzy" ∧
    (classify_ytdlp_error "xyzzy" none).is_retryable = false := by
  decide

/-- C5 (amended): when no listed category matches, the ffmpeg classifier
    falls back to Temporary with retryable = true, but the yt-dlp
    classifier falls back to YtDlpError, which is_retryable treats as
    non-retryable whenever the message also lacks the retryable keyword
    substrings. -/
theorem c5_fallback_classification :
    (∀ (message : String) (exit_code : Option Int),
        ffmpeg_temp_cond (to_lowercase message) exit_code = false →
        ffmpeg_disk_cond (to_lowercase message) = false →
        ffmpeg_permission_cond (to_lowercase message) exit_code = false →
        ffmpeg_format_cond (to_lowercase message) exit_code = false →
        classify_ffmpeg_error message exit_code = .TemporaryError message ∧
        (classify_ffmpeg_error message exit_code).is_retryable = true) ∧
    (∀ (message : String) (exit_code : Option Int),
        ytdlp_network_cond (to_lowercase message) exit_code = false →
        ytdlp_unavailable_cond (to_lowercase message) exit_code = false →
        ytdlp_disk_cond (to_lowercase message) = false →
        ytdlp_temporary_cond (to_lowercase message) exit_code = false →
        contains_substr message "network" = false →
        contains_substr message "timeout" = false →
        contains_substr message "connection" = false →
        contains_substr message "temporary" = false →
        contains_substr message "503" = false →
        contains_substr message "502" = false →
        contains_substr message "429" = false →
        classify_ytdlp_error message exit_code = .YtDlpError message ∧
        (classify_ytdlp_error message exit_code).is_retryable = false) := by
  refine ⟨?_, ?_⟩
  · intro message exit_code h1 h2 h3 h4
    exact ⟨by simp [classify_ffmpeg_error, h1, h2, h3, h4], by
      simp [classify_ffmpeg_error, h1, h2, h3, h4, MediaForgeError.is_retryable]⟩
  · intro message exit_code h1 h2 h3 h4 k1 k2 k3 k4 k5 k6 k7
    exact ⟨by simp [classify_ytdlp_error, h1, h2, h3, h4], by
      simp [classify_ytdlp_error, h1, h2, h3, h4, MediaForgeError.is_retryable,
            k1, k2, k3, k4, k5, k6, k7]⟩

/-- C5 witness: the amended statement evaluated at the unmatched
    messages "mysterious failure" (ffmpeg) and "xyzzy" (yt-dlp). -/
theorem c5_witness :
    (classify_ffmpeg_error "mysterious failure" none
        = .TemporaryError "mysterious failure" ∧
      (classify_ffmpeg_error "mysterious failure" none).is_retryable = true) ∧
    (classify_ytdlp_error "xyzzy" none = .YtDlpError "xyzzy" ∧
      (classify_ytdlp_error "xyzzy" none).is_retryable = false) :=
  ⟨c5_fallback_classification.1 "mysterious failure" none
      (by decide) (by decide) (by decide) (by decide),
   c5_fallback_classification.2 "xyzzy" none
      (by decide) (by decide) (by decide) (by decide) (by decide) (by decide)
      (by decide) (by decide) (by decide) (by decide) (by decide)⟩

/-- C7: the three specified classifications hold on the ffmpeg family:
    ("permission denied", 126) is Permission and not retryable,
    ("resource temporarily unavailable", 1) is Temporary and retryable,
    ("no space left on device", no exit code) is DiskSpace and not
    retryable. -/
theorem c7_classifier_examples :
    (classify_ffmpeg_error "permission denied" (some 126)
        = .PermissionError "permission denied" ∧
      (classify_ffmpeg_error "permission denied" (some 126)).is_retryable = false) ∧
    (classify_ffmpeg_error "resource temporarily unavailable" (some 1)
        = .TemporaryError "resource temporarily unavailable" ∧
      (classify_ffmpeg_error "resource temporarily unavailable" (some 1)).is_retryable
        = true) ∧
    (classify_ffmpeg_error "no space left on device" none
        = .DiskSpaceError "no space left on device" ∧
      (classify_ffmpeg_error "no space left on device" none).is_retryable = false) := by
  decide

/-- C9: for every failure message, classify_ytdlp_error with exit code 1
    returns the retryable NetworkError, because exit code 1 satisfies the
    first (network) branch condition before any message text matters. -/
theorem c9_exit_code_one_always_network (message : String) :
    classify_ytdlp_error message (some 1) = .NetworkError message ∧
    (classify_ytdlp_error message (some 1)).is_retryable = true := by
  have h : ytdlp_network_cond (to_lowercase message) (some 1) = true := by
    simp [ytdlp_network_cond]
  refine ⟨?_, ?_⟩
  · simp [classify_ytdlp_error, h]
  · simp [classify_ytdlp_error, h, MediaForgeError.is_retryable]

/-- C6: with a policy of max_attempts = 3 and base_delay = 0 (the other
    policy fields arbitrary), retry_async returns success after exactly
    3 invocations against an operation that fails retryably twice and
    then succeeds, and returns the error after exactly 1 invocation
    against an operation whose first failure is not retryable. -/
theorem c6_retry_async_invocation_counts :
    (∀ (T : Type) (max_delay : Nat) (expb : Bool)
        (op : Nat → Except MediaForgeError T) (e1 e2 : MediaForgeError) (v : T),
        op 0 = .error e1 → e1.is_retryable = true →
        op 1 = .error e2 → e2.is_retryable = true →
        op 2 = .ok v →
        retry_async ⟨3, 0, max_delay, expb⟩ op = (.ok v, 3)) ∧
    (∀ (T : Type) (max_delay : Nat) (expb : Bool)
        (op : Nat → Except MediaForgeError T) (e : MediaForgeError),
        op 0 = .error e → e.is_retryable = false →
        retry_async ⟨3, 0, max_delay, expb⟩ op = (.error e, 1)) := by
  constructor
  · intro T max_delay expb op e1 e2 v h0 hr1 h1 hr2 h2
    show retry_go op (Nat.succ 2) 0 none = (.ok v, 3)
    rw [retry_go, h0]
    simp only [hr1, if_true]
    show retry_go op (Nat.succ 1) 1 (some e1) = (.ok v, 3)
    rw [retry_go, h1]
    simp only [hr2, if_true]
    show retry_go op (Nat.succ 0) 2 (some e2) = (.ok v, 3)
    rw [retry_go, h2]
  · intro T max_delay expb op e h0 hr
    show retry_go op (Nat.succ 2) 0 none = (.error e, 1)
    rw [retry_go, h0]
    simp [hr]

/-- C6 witness: both arms evaluated on concrete operations, one failing
    with a retryable network error twice before succeeding with 7, one
    failing immediately with a non-retryable permission error. -/
theorem c6_witness :
    retry_async ⟨3, 0, 60, true⟩ op_fails_twice = (.ok 7, 3) ∧
    retry_async ⟨3, 0, 60, true⟩ op_fatal = (.error (.PermissionError "denied"), 1) :=
  ⟨c6_retry_async_invocation_counts.1 Nat 60 true op_fails_twice
      (.NetworkError "connection reset by peer") (.NetworkError "connection reset by peer") 7
      rfl (by decide) rfl (by decide) rfl,
   c6_retry_async_invocation_counts.2 Nat 60 true op_fatal
      (.PermissionError "denied") rfl (by decide)⟩

/-- C1 counterexample: a task whose status is the terminal Completed is
    still mutated by a subsequent pause_task, which flips its status to
    Paused, contradicting the claim that no operation changes a terminal
    task's status. -/
theorem c1_counterexample :
    (get_task terminal_registry_fixture "t1").map (fun t => t.status)
      = some .Completed ∧
    TaskStatus.Completed.isTerminal = true ∧
    (get_task (pause_task terminal_registry_fixture "t1").1 "t1").map (fun t => t.status)
      = some .Paused ∧
    TaskStatus.Paused ≠ TaskStatus.Completed := by
  decide

/-- C1 (amended): registry mutation is guarded only by task existence,
    never by terminal status: for a task present with a terminal status,
    pause_task still sets Paused, cancel_task without a supervision
    record still sets Cancelled with a reason, and update_task still
    applies an arbitrary late callback. -/
theorem c1_terminal_tasks_still_mutable :
    ∀ (r : Registry) (task_id : String) (t : TaskProgress),
      get_task r task_id = some t →
      t.status.isTerminal = true →
      (get_task (pause_task r task_id).1 task_id = some { t with status := TaskStatus.Paused }) ∧
      (∀ (s : ManagerState) (join_ok : Bool),
          s.tasks = r → s.task_handles.contains task_id = false →
          get_task (cancel_task s task_id join_ok).1.tasks task_id
            = some { t with status := TaskStatus.Cancelled, error := some "Task cancelled by user" }) ∧
      (∀ f : TaskProgress → TaskProgress,
          get_task (update_task r task_id f) task_id = some (f t)) := by
  intro r task_id t hget hterm
  refine ⟨?_, ?_, ?_⟩
  · simp only [pause_task]
    rw [get_task_update_task, hget]
    rfl
  · intro s join_ok hs hh
    have hh' : ¬task_id ∈ s.task_handles := by simpa using hh
    simp [cancel_task, hh', hs]
    rw [get_task_update_task, hget]
    rfl
  · intro f
    rw [get_task_update_task, hget]
    rfl

/-- C1 witness: the amended statement evaluated on a concrete registry
    holding one Completed task. -/
theorem c1_witness :
    (get_task (pause_task terminal_registry_fixture "t1").1 "t1"
      = some { terminal_task_fixture with status := TaskStatus.Paused }) ∧
    get_task (update_task terminal_registry_fixture "t1" cancelled_update) "t1"
      = some (cancelled_update terminal_task_fixture) :=
  ⟨(c1_terminal_tasks_still_mutable terminal_registry_fixture "t1"
      terminal_task_fixture rfl (by decide)).1,
   (c1_terminal_tasks_still_mutable terminal_registry_fixture "t1"
      terminal_task_fixture rfl (by decide)).2.2 cancelled_update⟩

/-- C8: cancelling a task with no surviving supervision record returns
    success, touches nothing but the registry (the handle table is
    unchanged, the registry write is exactly the cancelled update), and
    leaves an existing task Cancelled with the cancellation reason. -/
theorem c8_cancel_without_handle :
    ∀ (s : ManagerState) (task_id : String) (join_ok : Bool),
      s.task_handles.contains task_id = false →
      (cancel_task s task_id join_ok).2 = .ok () ∧
      (cancel_task s task_id join_ok).1.task_handles = s.task_handles ∧
      (cancel_task s task_id join_ok).1.tasks
        = update_task s.tasks task_id cancelled_update ∧
      (∀ t : TaskProgress, get_task s.tasks task_id = some t →
        get_task (cancel_task s task_id join_ok).1.tasks task_id
          = some { t with status := TaskStatus.Cancelled, error := some "Task cancelled by user" }) := by
  intro s task_id join_ok h
  have h' : ¬task_id ∈ s.task_handles := by simpa using h
  refine ⟨?_, ?_, ?_, ?_⟩
  · simp [cancel_task, h']
  · simp [cancel_task, h']
  · simp [cancel_task, h']
  · intro t hget
    simp [cancel_task, h']
    rw [get_task_update_task, hget]
    rfl

/-- C8 witness: cancel-after-completion on a concrete finished task whose
    handle is gone succeeds and marks the task Cancelled. -/
theorem c8_witness :
    (cancel_task finished_state_fixture "t8" true).2 = .ok () ∧
    get_task (cancel_task finished_state_fixture "t8" true).1.tasks "t8"
      = some { terminal_task_fixture with task_id := "t8", status := TaskStatus.Cancelled, error := some "Task cancelled by user" } :=
  ⟨(c8_cancel_without_handle finished_state_fixture "t8" true (by decide)).1,
   (c8_cancel_without_handle finished_state_fixture "t8" true (by decide)).2.2.2
      { terminal_task_fixture with task_id := "t8" } rfl⟩

/-- C10: any line containing "[download]" but no parseable percent token
    still produces Some update, with percentage defaulted to 0.0, and
    running it through the progress callback resets an existing task's
    stored progress to 0. -/
theorem c10_download_line_without_percent :
    ∀ line : String,
      contains_substr line "[download]" = true →
      percent_token? line = none →
      (parse_ytdlp_progress line).map (fun i => i.percentage) = some 0 ∧
      (∀ (r : Registry) (task_id : String) (t : TaskProgress),
          get_task r task_id = some t →
          (get_task (apply_stdout_line r task_id line) task_id).map (fun t2 => t2.progress)
            = some 0) := by
  intro line h1 h2
  have hparse : parse_ytdlp_progress line
      = some { percentage := 0,
               speed := (split_nth_after "at" line).bind first_token?,
               eta := (split_nth_after "ETA" line).bind first_token? } := by
    simp [parse_ytdlp_progress, h1, h2]
  refine ⟨?_, ?_⟩
  · rw [hparse]
    rfl
  · intro r task_id t hget
    simp only [apply_stdout_line, hparse]
    cases hfp : extract_file_path? line with
    | none =>
        simp only [hfp]
        rw [get_task_update_task, hget]
        rfl
    | some fp =>
        simp only [hfp]
        rw [get_task_update_task, get_task_update_task, hget]
        rfl

/-- C10 witness: a destination-style [download] line with no percent
    token yields percentage 0 and resets a concrete Downloading task's
    progress to 0. -/
theorem c10_witness :
    (parse_ytdlp_progress "[download] 100 percent done").map (fun i => i.percentage)
      = some 0 ∧
    (get_task (apply_stdout_line downloading_registry_fixture "t"
        "[download] 100 percent done") "t").map (fun t2 => t2.progress) = some 0 :=
  ⟨(c10_download_line_without_percent "[download] 100 percent done"
      (by decide) (by decide)).1,
   (c10_download_line_without_percent "[download] 100 percent done"
      (by decide) (by decide)).2 downloading_registry_fixture "t"
      downloading_task_fixture rfl⟩

/-- C4 counterexample: the yt-dlp path does not clamp progress. Feeding a
    "[download] 150.0%" line through the progress callback stores 150
    (outside [0,100]) while the task's status is still Downloading, and a
    following "[download] Destination:" line (no percent token) stores 0,
    so successive Active-state progress values also decrease. -/
theorem c4_counterexample :
    (get_task (apply_stdout_line downloading_registry_fixture "t"
        "[download] 150.0%") "t").map (fun tk => tk.progress) = some 150 ∧
    (get_task (apply_stdout_line downloading_registry_fixture "t"
        "[download] 150.0%") "t").map (fun tk => tk.status) = some .Downloading ∧
    ¬((150:ℚ) ≤ 100) ∧
    (get_task (apply_stdout_line (apply_stdout_line downloading_registry_fixture "t"
        "[download] 150.0%") "t" "[download] Destination: /tmp/out.mp4") "t").map
      (fun tk => tk.progress) = some 0 ∧
    (0:ℚ) < 150 := by
  have hfp1 : extract_file_path? "[download] 150.0%" = none := by decide
  have h2 : parse_ytdlp_progress "[download] Destination: /tmp/out.mp4"
      = some { percentage := 0, speed := some "ion:", eta := none } := by decide
  have hfp2 : extract_file_path? "[download] Destination: /tmp/out.mp4"
      = some "/tmp/out.mp4" := by decide
  have hpt1 : (percent_token? "[download] 150.0%").getD 0 = 150 := by
    have hpt : percent_token? "[download] 150.0%"
        = some ((((1500:Nat)):ℚ) / ((10:ℚ) ^ (1:Nat))) := rfl
    rw [hpt]
    norm_num
  have hpt2 : (percent_token? "[download] Destination: /tmp/out.mp4").getD 0 = 0 := by
    have hn : percent_token? "[download] Destination: /tmp/out.mp4" = none := by decide
    rw [hn]
    rfl
  refine ⟨?_, ?_, by norm_num, ?_, by norm_num⟩
  · simp [apply_stdout_line, hfp1, hpt1, downloading_registry_fixture,
          downloading_task_fixture, update_task, get_task, List.find?]
  · simp [apply_stdout_line, hfp1, hpt1, downloading_registry_fixture,
          downloading_task_fixture, update_task, get_task, List.find?]
  · simp [apply_stdout_line, hfp1, hfp2, hpt1, hpt2, downloading_registry_fixture,
          downloading_task_fixture, update_task, get_task, List.find?]

/-- C4 (amended): the stateless ffmpeg progress parser only ever surfaces
    percentages inside (0, 100] (its output is clamped by min and gated
    by an explicit range check); the yt-dlp download path has no such
    clamp, so there the claimed bounds and monotonicity fail (see the
    counterexample). -/
theorem c4_ffmpeg_progress_bounds :
    ∀ (line : String) (p : ℚ),
      parse_ffmpeg_progress line = some p → 0 < p ∧ p ≤ 100 := by
  intro line p h
  unfold parse_ffmpeg_progress at h
  split at h
  · split at h
    · dsimp only [] at h
      split at h
      · rename_i hc
        cases h
        exact hc
      · exact absurd h (by simp)
    · exact absurd h (by simp)
  · exact absurd h (by simp)

/-- Evaluation of the ffmpeg parser at a concrete progress line: 300000
    of the assumed 600000 ms is 50 percent. -/
theorem parse_ffmpeg_progress_out_time_300000 :
    parse_ffmpeg_progress "out_time_ms=300000" = some 50 := by
  have hpre : (("out_time_ms=".data).isPrefixOf ("out_time_ms=300000".data)) = true := by
    decide
  have h2 : parse_u64?
      ⟨trimWS (("out_time_ms=300000".data).drop ("out_time_ms=".data).length)⟩
      = some 300000 := by decide
  simp only [parse_ffmpeg_progress, hpre, if_true, h2]
  norm_num [min_def]

/-- C4 witness: the ffmpeg bound applied at the concrete line
    out_time_ms=300000, whose parsed progress is 50. -/
theorem c4_witness :
    parse_ffmpeg_progress "out_time_ms=300000" = some 50 ∧
    (0 < (50:ℚ) ∧ (50:ℚ) ≤ 100) :=
  ⟨parse_ffmpeg_progress_out_time_300000,
   c4_ffmpeg_progress_bounds "out_time_ms=300000" 50
     parse_ffmpeg_progress_out_time_300000⟩

/-- Loop behaviour of start_download when a url in the middle of the
    batch fails validation: the whole call errors out, and exactly the
    tasks of the earlier valid urls have been created. -/
theorem start_download_loop_stops_at_invalid (env : DlValidationEnv)
    (bad : String) (e : MediaForgeError) (rest : List String)
    (hbad : env.validate_youtube_url bad = .error e) :
    ∀ (good : List String) (s : DMState) (acc : List String),
      (∀ u ∈ good, env.validate_youtube_url u = .ok ()) →
      (start_download_loop env s acc (good ++ bad :: rest)).1 = .error e ∧
      (start_download_loop env s acc (good ++ bad :: rest)).2.tasks.length
        = s.tasks.length + good.length := by
  intro good
  induction good with
  | nil =>
      intro s acc _
      simp [start_download_loop, hbad]
  | cons u good ih =>
      intro s acc hgood
      have hu : env.validate_youtube_url u = .ok () := hgood u (by simp)
      have hg : ∀ w ∈ good, env.validate_youtube_url w = .ok () :=
        fun w hw => hgood w (List.mem_cons_of_mem u hw)
      rw [List.cons_append]
      simp only [start_download_loop, hu]
      constructor
      · exact (ih _ _ hg).1
      · rw [(ih _ _ hg).2]
        simp [create_task, update_task_length]
        omega

/-- Loop behaviour of start_conversion when an input file in the middle
    of the batch fails validation, mirroring the download case. -/
theorem start_conversion_loop_stops_at_invalid (env : ConvValidationEnv)
    (request : ConvertRequest) (bad : String) (e : MediaForgeError)
    (rest : List String)
    (hbad : validate_conversion_item env request bad = .error e) :
    ∀ (good : List String) (s : DMState) (acc : List String),
      (∀ f ∈ good, validate_conversion_item env request f = .ok ()) →
      (start_conversion_loop env request s acc (good ++ bad :: rest)).1 = .error e ∧
      (start_conversion_loop env request s acc (good ++ bad :: rest)).2.tasks.length
        = s.tasks.length + good.length := by
  intro good
  induction good with
  | nil =>
      intro s acc _
      simp [start_conversion_loop, hbad]
  | cons u good ih =>
      intro s acc hgood
      have hu : validate_conversion_item env request u = .ok () := hgood u (by simp)
      have hg : ∀ w ∈ good, validate_conversion_item env request w = .ok () :=
        fun w hw => hgood w (List.mem_cons_of_mem u hw)
      rw [List.cons_append]
      simp only [start_conversion_loop, hu]
      constructor
      · exact (ih _ _ hg).1
      · rw [(ih _ _ hg).2]
        simp [create_task, update_task_length]
        omega

/-- C2 counterexample: with the middle url of a three-url batch invalid,
    start_download returns only the error and the final registry holds
    exactly one task (for the first url): the third, valid, url gets no
    task at all and the caller never receives the first task's id, so a
    per-item validation failure does not reject "only that item". -/
theorem c2_counterexample :
    (start_download c2_dl_env c2_dl_request empty_dm_state).1
      = .error (.InvalidUrl "bad url") ∧
    (start_download c2_dl_env c2_dl_request empty_dm_state).2.tasks.map
      (fun p => p.2.name) = ["Downloading from u1"] := by
  constructor
  · rfl
  · rfl

/-- C2 (amended): a failing destination validation rejects the whole
    batch before any task is created, and a failing per-item validation
    is surfaced before any task is created for the failing item, but it
    aborts the remainder of the batch: tasks already created for earlier
    items remain, no task is created for the failing or later items, and
    the caller receives only the error. Both submission paths behave the
    same way. -/
theorem c2_validation_batch_semantics :
    (∀ (env : DlValidationEnv) (request : DownloadRequest) (s : DMState)
        (e : MediaForgeError),
        env.sanitize_path request.download_path = .error e →
        start_download env request s = (.error e, s)) ∧
    (∀ (env : DlValidationEnv) (request : DownloadRequest) (s : DMState)
        (good : List String) (bad : String) (rest : List String) (e : MediaForgeError),
        request.urls = good ++ bad :: rest →
        env.sanitize_path request.download_path = .ok () →
        (∀ u ∈ good, env.validate_youtube_url u = .ok ()) →
        env.validate_youtube_url bad = .error e →
        (start_download env request s).1 = .error e ∧
        (start_download env request s).2.tasks.length = s.tasks.length + good.length) ∧
    (∀ (env : ConvValidationEnv) (request : ConvertRequest) (s : DMState)
        (e : MediaForgeError),
        env.sanitize_path request.output_path = .error e →
        start_conversion env request s = (.error e, s)) ∧
    (∀ (env : ConvValidationEnv) (request : ConvertRequest) (s : DMState)
        (good : List String) (bad : String) (rest : List String) (e : MediaForgeError),
        request.input_files = good ++ bad :: rest →
        env.sanitize_path request.output_path = .ok () →
        (∀ f ∈ good, validate_conversion_item env request f = .ok ()) →
        validate_conversion_item env request bad = .error e →
        (start_conversion env request s).1 = .error e ∧
        (start_conversion env request s).2.tasks.length
          = s.tasks.length + good.length) := by
  refine ⟨?_, ?_, ?_, ?_⟩
  · intro env request s e hdest
    simp [start_download, hdest]
  · intro env request s good bad rest e hurls hdest hgood hbad
    have h := start_download_loop_stops_at_invalid env bad e rest hbad good s [] hgood
    constructor
    · simp only [start_download, hdest, hurls]
      exact h.1
    · simp only [start_download, hdest, hurls]
      exact h.2
  · intro env request s e hdest
    simp [start_conversion, hdest]
  · intro env request s good bad rest e hfiles hdest hgood hbad
    have h := start_conversion_loop_stops_at_invalid env request bad e rest hbad good s [] hgood
    constructor
    · simp only [start_conversion, hdest, hfiles]
      exact h.1
    · simp only [start_conversion, hdest, hfiles]
      exact h.2

/-- C2 witness: all four arms of the amended statement evaluated on
    concrete validators, requests and the empty manager state. -/
theorem c2_witness :
    start_download c2_dl_env_bad_dest c2_dl_request empty_dm_state
      = (.error (.InvalidSettings "bad destination"), empty_dm_state) ∧
    ((start_download c2_dl_env c2_dl_request empty_dm_state).1
        = .error (.InvalidUrl "bad url") ∧
      (start_download c2_dl_env c2_dl_request empty_dm_state).2.tasks.length = 1) ∧
    start_conversion c2_conv_env_bad_dest c2_conv_request empty_dm_state
      = (.error (.InvalidSettings "bad destination"), empty_dm_state) ∧
    ((start_conversion c2_conv_env c2_conv_request empty_dm_state).1
        = .error (.FileSystemError "missing input") ∧
      (start_conversion c2_conv_env c2_conv_request empty_dm_state).2.tasks.length = 1) :=
  ⟨c2_validation_batch_semantics.1 c2_dl_env_bad_dest c2_dl_request empty_dm_state
      (.InvalidSettings "bad destination") rfl,
   c2_validation_batch_semantics.2.1 c2_dl_env c2_dl_request empty_dm_state
      ["u1"] "bad" ["u3"] (.InvalidUrl "bad url") rfl rfl (by decide) rfl,
   c2_validation_batch_semantics.2.2.1 c2_conv_env_bad_dest c2_conv_request
      empty_dm_state (.InvalidSettings "bad destination") rfl,
   c2_validation_batch_semantics.2.2.2 c2_conv_env c2_conv_request empty_dm_state
      ["a.avi"] "bad.avi" ["c.avi"] (.FileSystemError "missing input")
      rfl rfl (by decide) rfl⟩
